import Mathlib

/-!
Verification of the O&M Portfolio Tracker calculation layer.

Shallow embedding of `src/lib/calculations.ts` together with the data model of
`src/types/index.ts`.  JavaScript numbers are modelled as exact rationals.
JavaScript `Math.round x` is modelled as `Int.floor (x + 1/2)` (round half
toward positive infinity), which is the ECMAScript semantics of `Math.round`.
Calendar dates are modelled structurally (`year`, `month`, `day`); comparison
of two valid dates by timestamp coincides with lexicographic comparison.
The current date ("now"), an implicit external input of the CM-days
reconciler, is passed as an explicit year/month parameter.
-/

/-- `'Yes' | 'No'` union type of `contractStatus`. -/
inductive ContractStatus
  | yes
  | no
  deriving DecidableEq

/-- `'Rooftop' | 'Ground Mount'` union type of `siteType`. -/
inductive SiteType
  | rooftop
  | groundMount
  deriving DecidableEq

/-- A calendar date (the code stores dates as strings and compares them after
parsing with `new Date`; for valid dates that comparison is lexicographic on
year, month, day). -/
structure Date where
  year : Nat
  month : Nat
  day : Nat
  deriving DecidableEq

/-- A `YYYY-MM` year/month key (the code renders these as strings; the string
form is in bijection with the pair). -/
structure YM where
  year : Nat
  month : Nat
  deriving DecidableEq

/-- `new Date(a) <= new Date(b)` for valid dates: lexicographic comparison. -/
def dateLe (a b : Date) : Bool :=
  decide (a.year < b.year) ||
    (decide (a.year = b.year) &&
      (decide (a.month < b.month) ||
        (decide (a.month = b.month) && decide (a.day ≤ b.day))))

/-- `RateTier` of `src/types/index.ts`; `maxCapacityMW : number | null`. -/
structure RateTier where
  id : String
  tierName : String
  minCapacityMW : ℚ
  maxCapacityMW : Option ℚ
  ratePerKwp : ℚ
  deriving DecidableEq

/-- `Site` of `src/types/index.ts`. -/
structure Site where
  id : String
  name : String
  systemSizeKwp : ℚ
  siteType : SiteType
  contractStatus : ContractStatus
  onboardDate : Option Date
  pmCost : ℚ
  cctvCost : ℚ
  cleaningCost : ℚ
  spvId : Option String
  spvCode : Option String
  sourceSheet : Option String
  sourceRow : Option ℚ
  createdAt : String
  updatedAt : String
  deriving DecidableEq

/-- `SiteWithCalculations extends Site` of `src/types/index.ts`. -/
structure SiteWithCalculations extends Site where
  siteFixedCosts : ℚ
  portfolioCost_20MW : ℚ
  portfolioCost_30MW : ℚ
  portfolioCost_40MW : ℚ
  fixedFee_20MW : ℚ
  fixedFee_30MW : ℚ
  fixedFee_40MW : ℚ
  feePerKwp_20MW : ℚ
  feePerKwp_30MW : ℚ
  feePerKwp_40MW : ℚ
  monthlyFee : ℚ
  deriving DecidableEq

/-- `CMDaysUsage` of `src/types/index.ts`. -/
structure CMDaysUsage where
  id : String
  yearMonth : YM
  daysUsed : ℚ
  notes : Option String
  createdAt : String
  updatedAt : String
  deriving DecidableEq

/-- `CMDaysMonthData` of `src/types/index.ts`. -/
structure CMDaysMonthData where
  yearMonth : YM
  daysAccumulated : ℚ
  daysUsed : ℚ
  daysRemaining : ℚ
  cumulativeAccumulated : ℚ
  cumulativeUsed : ℚ
  cumulativeRemaining : ℚ
  deriving DecidableEq

/-- `CMDaysTrackingSummary` of `src/types/index.ts`. -/
structure CMDaysTrackingSummary where
  portfolioStartDate : Option Date
  monthlyData : List CMDaysMonthData
  totalAccumulated : ℚ
  totalUsed : ℚ
  totalRemaining : ℚ
  deriving DecidableEq

/-- `PortfolioSummary` of `src/types/index.ts`.  `sitesBySpv` is an insertion
ordered association list modelling the JS record; `currentTier` is the looked
up tier name (`none` would correspond to the unreachable case of an empty
tier table). -/
structure PortfolioSummary where
  totalSites : Nat
  contractedSites : Nat
  totalCapacityKwp : ℚ
  contractedCapacityKwp : ℚ
  currentTier : Option String
  totalMonthlyFee : ℚ
  correctiveDaysAllowed : ℚ
  sitesBySpv : List (String × Nat)
  deriving DecidableEq

/-- `DEFAULT_RATE_TIERS` of `src/lib/calculations.ts`. -/
def DEFAULT_RATE_TIERS : List RateTier :=
  [ { id := "1", tierName := "<20MW", minCapacityMW := 0,
      maxCapacityMW := some 20, ratePerKwp := 2 },
    { id := "2", tierName := "20-30MW", minCapacityMW := 20,
      maxCapacityMW := some 30, ratePerKwp := 9/5 },
    { id := "3", tierName := "30-40MW", minCapacityMW := 30,
      maxCapacityMW := some 40, ratePerKwp := 17/10 } ]

/-- `calculateSiteFixedCosts`. -/
def calculateSiteFixedCosts (site : Site) : ℚ :=
  site.pmCost + site.cctvCost + site.cleaningCost

/-- `calculatePortfolioCost`. -/
def calculatePortfolioCost (systemSizeKwp ratePerKwp : ℚ) : ℚ :=
  systemSizeKwp * ratePerKwp

/-- `calculateFixedFee`. -/
def calculateFixedFee (siteFixedCosts portfolioCost : ℚ) : ℚ :=
  siteFixedCosts + portfolioCost

/-- `calculateFeePerKwp`: `if (!isContracted || systemSizeKwp === 0) return 0`. -/
def calculateFeePerKwp (fixedFee systemSizeKwp : ℚ) (isContracted : Bool) : ℚ :=
  if isContracted = false ∨ systemSizeKwp = 0 then 0
  else fixedFee / systemSizeKwp

/-- `calculateMonthlyFee`. -/
def calculateMonthlyFee (fixedFee : ℚ) : ℚ :=
  fixedFee / 12

/-- The loop guard of `determinePortfolioTier`:
`tier.maxCapacityMW === null || totalCapacityMW < tier.maxCapacityMW`. -/
def tierMatchB (totalCapacityMW : ℚ) (tier : RateTier) : Bool :=
  match tier.maxCapacityMW with
  | none => true
  | some m => decide (totalCapacityMW < m)

/-- `determinePortfolioTier`: first tier whose guard holds, else the last tier
(`tiers[tiers.length - 1]`, which is `undefined` — `none` — on an empty
table). -/
def determinePortfolioTier (totalCapacityMW : ℚ) (tiers : List RateTier) :
    Option RateTier :=
  match tiers.find? (tierMatchB totalCapacityMW) with
  | some t => some t
  | none => tiers.getLast?

/-- The tier lookups of `calculateSiteWithAllTiers`:
`tiers.find(t => t.tierName === name) || tiers[idx]` (an object is never
falsy, so `||` falls through exactly when `find` misses; the result is
`undefined` — `none` — when the index is also out of range). -/
def tierLookup (tiers : List RateTier) (name : String) (idx : Nat) :
    Option RateTier :=
  match tiers.find? (fun t => decide (t.tierName = name)) with
  | some t => some t
  | none => tiers.get? idx

/-- The body of `calculateSiteWithAllTiers` once the three tier lookups have
succeeded. -/
def assembleSiteCalculations (site : Site) (tier20MW tier30MW tier40MW : RateTier) :
    SiteWithCalculations :=
  let siteFixedCosts := calculateSiteFixedCosts site
  let isContracted := decide (site.contractStatus = ContractStatus.yes)
  let portfolioCost_20MW := calculatePortfolioCost site.systemSizeKwp tier20MW.ratePerKwp
  let portfolioCost_30MW := calculatePortfolioCost site.systemSizeKwp tier30MW.ratePerKwp
  let portfolioCost_40MW := calculatePortfolioCost site.systemSizeKwp tier40MW.ratePerKwp
  let fixedFee_20MW := calculateFixedFee siteFixedCosts portfolioCost_20MW
  let fixedFee_30MW := calculateFixedFee siteFixedCosts portfolioCost_30MW
  let fixedFee_40MW := calculateFixedFee siteFixedCosts portfolioCost_40MW
  { toSite := site
    siteFixedCosts := siteFixedCosts
    portfolioCost_20MW := portfolioCost_20MW
    portfolioCost_30MW := portfolioCost_30MW
    portfolioCost_40MW := portfolioCost_40MW
    fixedFee_20MW := fixedFee_20MW
    fixedFee_30MW := fixedFee_30MW
    fixedFee_40MW := fixedFee_40MW
    feePerKwp_20MW := calculateFeePerKwp fixedFee_20MW site.systemSizeKwp isContracted
    feePerKwp_30MW := calculateFeePerKwp fixedFee_30MW site.systemSizeKwp isContracted
    feePerKwp_40MW := calculateFeePerKwp fixedFee_40MW site.systemSizeKwp isContracted
    monthlyFee :=
      if isContracted then calculateMonthlyFee fixedFee_20MW else 0 }

/-- `calculateSiteWithAllTiers`.  `none` models the `TypeError` the source
would raise when a tier lookup yields `undefined` and its fields are then
accessed; with the default table every lookup succeeds. -/
def calculateSiteWithAllTiers (site : Site) (tiers : List RateTier) :
    Option SiteWithCalculations :=
  match tierLookup tiers "<20MW" 0, tierLookup tiers "20-30MW" 1,
      tierLookup tiers "30-40MW" 2 with
  | some tier20MW, some tier30MW, some tier40MW =>
    some (assembleSiteCalculations site tier20MW tier30MW tier40MW)
  | _, _, _ => none

/-- JavaScript `Math.round`: round half toward positive infinity. -/
def jsRound (x : ℚ) : ℤ :=
  ⌊x + 1/2⌋

/-- `Math.round(x * 10) / 10` — the 1-decimal rounding used throughout the
CM-days code. -/
def round1 (x : ℚ) : ℚ :=
  ((jsRound (x * 10) : ℚ)) / 10

/-- `calculateMonthlyCorrectiveDays`: `Math.round((capacityMW / 12) * 10) / 10`. -/
def calculateMonthlyCorrectiveDays (capacityMW : ℚ) : ℚ :=
  round1 (capacityMW / 12)

/-- Insert a date into an ascending list (helper for the `.sort` call of
`getPortfolioStartDate`). -/
def insertDateSorted (d : Date) : List Date → List Date
  | [] => [d]
  | e :: rest =>
    if dateLe d e then d :: e :: rest else e :: insertDateSorted d rest

/-- Sort dates ascending (models `.sort((a, b) => new Date(a).getTime() - new
Date(b).getTime())`; any stable comparison sort has the same head, which is
all the caller uses). -/
def sortDatesAsc (l : List Date) : List Date :=
  l.foldr insertDateSorted []

/-- `getPortfolioStartDate`: earliest onboard date among contracted sites that
have one; `null` — `none` — when there is no such site. -/
def getPortfolioStartDate (sites : List Site) : Option Date :=
  let contractedSites :=
    sites.filter (fun s =>
      decide (s.contractStatus = ContractStatus.yes) && s.onboardDate.isSome)
  match contractedSites with
  | [] => none
  | _ => (sortDatesAsc (contractedSites.filterMap (fun s => s.onboardDate))).head?

/-- `start.setMonth(start.getMonth() + 1)` at month granularity. -/
def nextYM (ym : YM) : YM :=
  if ym.month ≥ 12 then ⟨ym.year + 1, 1⟩ else ⟨ym.year, ym.month + 1⟩

/-- Linear month index used to compare two `YM`s and to count loop steps. -/
def ymIndex (ym : YM) : Nat :=
  ym.year * 12 + (ym.month - 1)

/-- The body of the `while (start <= now)` loop of `getMonthsFromStart`,
with the iteration count (one step per calendar month) made explicit. -/
def monthsLoop : Nat → YM → List YM
  | 0, _ => []
  | n + 1, s => s :: monthsLoop n (nextYM s)

/-- `getMonthsFromStart`: every month from the start date's month through the
current month, inclusive.  Both dates are normalized to the 1st of their
month before the comparison, so the loop runs `ymIndex now - ymIndex start + 1`
times (zero when the start month is after the current month).  `now` is the
injected current year/month. -/
def getMonthsFromStart (startDate : Date) (now : YM) : List YM :=
  let start : YM := ⟨startDate.year, startDate.month⟩
  monthsLoop (ymIndex now + 1 - ymIndex start) start

/-- `year % 4 === 0 && (year % 100 !== 0 || year % 400 === 0)` — the
Gregorian leap-year rule applied internally by the JS `Date` type. -/
def isLeapYear (y : Nat) : Bool :=
  decide (y % 4 = 0) && (decide (y % 100 ≠ 0) || decide (y % 400 = 0))

/-- Number of days of a (1-indexed) calendar month. -/
def daysInMonth (y m : Nat) : Nat :=
  if m = 2 then (if isLeapYear y then 29 else 28)
  else if m = 4 ∨ m = 6 ∨ m = 9 ∨ m = 11 then 30
  else 31

/-- The calendar day immediately preceding a given date. -/
def prevCalendarDay (d : Date) : Date :=
  if d.day > 1 then ⟨d.year, d.month, d.day - 1⟩
  else if d.month > 1 then ⟨d.year, d.month - 1, daysInMonth d.year (d.month - 1)⟩
  else ⟨d.year - 1, 12, 31⟩

/-- `new Date(year, month, 0)` for a 1-indexed `month` in `1..12`: JS reads
the argument as a 0-indexed month and day `0` as the day before its 1st, so
the value is the day before the first day of month `month + 1` (with year
rollover), i.e. the last day of (1-indexed) month `month`. -/
def jsEndOfMonth (year month : Nat) : Date :=
  prevCalendarDay
    ⟨(if month = 12 then year + 1 else year),
     (if month = 12 then 1 else month + 1), 1⟩

/-- `getContractedCapacityKwpForMonth`: sum of `systemSizeKwp` over contracted
sites onboarded on or before the last day of the month. -/
def getContractedCapacityKwpForMonth (sites : List Site) (yearMonth : YM) : ℚ :=
  let endOfMonth := jsEndOfMonth yearMonth.year yearMonth.month
  (sites.filter (fun s =>
      match s.onboardDate with
      | none => false
      | some onboardDate =>
        decide (s.contractStatus = ContractStatus.yes) && dateLe onboardDate endOfMonth)).foldl
    (fun sum s => sum + s.systemSizeKwp) 0

/-- `usageMap.get(yearMonth) || 0` where `usageMap` is built by inserting
every usage record in order (later records with the same key overwrite
earlier ones, hence the lookup finds the last occurrence). -/
def lookupUsage (cmDaysUsage : List CMDaysUsage) (ym : YM) : ℚ :=
  match cmDaysUsage.reverse.find? (fun u => decide (u.yearMonth = ym)) with
  | some u => u.daysUsed
  | none => 0

/-- The `months.map(...)` closure of `calculateCMDaysTracking`, with the two
mutable running sums `cumulativeAccumulated` / `cumulativeUsed` threaded
explicitly; returns the emitted rows together with the final values of the
two running sums. -/
def cmDaysLoop (sites : List Site) (cmDaysUsage : List CMDaysUsage) :
    List YM → ℚ → ℚ → List CMDaysMonthData × ℚ × ℚ
  | [], ca, cu => ([], ca, cu)
  | ym :: rest, ca, cu =>
    let capacityMW := getContractedCapacityKwpForMonth sites ym / 1000
    let daysAccumulated := calculateMonthlyCorrectiveDays capacityMW
    let daysUsed := lookupUsage cmDaysUsage ym
    let daysRemaining := daysAccumulated - daysUsed
    let ca2 := ca + daysAccumulated
    let cu2 := cu + daysUsed
    let cumulativeRemaining := ca2 - cu2
    let entry : CMDaysMonthData :=
      { yearMonth := ym
        daysAccumulated := round1 daysAccumulated
        daysUsed := daysUsed
        daysRemaining := round1 daysRemaining
        cumulativeAccumulated := round1 ca2
        cumulativeUsed := round1 cu2
        cumulativeRemaining := round1 cumulativeRemaining }
    let res := cmDaysLoop sites cmDaysUsage rest ca2 cu2
    (entry :: res.1, res.2)

/-- `calculateCMDaysTracking` with the current year/month injected. -/
def calculateCMDaysTracking (sites : List Site) (cmDaysUsage : List CMDaysUsage)
    (now : YM) : CMDaysTrackingSummary :=
  match getPortfolioStartDate sites with
  | none =>
    { portfolioStartDate := none
      monthlyData := []
      totalAccumulated := 0
      totalUsed := 0
      totalRemaining := 0 }
  | some portfolioStartDate =>
    let months := getMonthsFromStart portfolioStartDate now
    let res := cmDaysLoop sites cmDaysUsage months 0 0
    { portfolioStartDate := some portfolioStartDate
      monthlyData := res.1
      totalAccumulated := round1 res.2.1
      totalUsed := round1 res.2.2
      totalRemaining := round1 (res.2.1 - res.2.2) }

/-- Bump the count of a key in the insertion-ordered association list
modelling the `sitesBySpv` record. -/
def bumpSpvCount (m : List (String × Nat)) (key : String) : List (String × Nat) :=
  if m.any (fun kv => decide (kv.1 = key)) then
    m.map (fun kv => if kv.1 = key then (kv.1, kv.2 + 1) else kv)
  else
    m ++ [(key, 1)]

/-- `calculatePortfolioSummary`.  The JS code calls `determinePortfolioTier`
and `calculateSiteWithAllTiers` with their default `DEFAULT_RATE_TIERS`
argument; the tier lookups always succeed on the default table, so the
`filterMap` keeps every contracted site. -/
def calculatePortfolioSummary (sites : List Site) : PortfolioSummary :=
  let contractedSites :=
    sites.filter (fun s => decide (s.contractStatus = ContractStatus.yes))
  let totalCapacityKwp := sites.foldl (fun sum s => sum + s.systemSizeKwp) 0
  let contractedCapacityKwp :=
    contractedSites.foldl (fun sum s => sum + s.systemSizeKwp) 0
  let currentTier :=
    determinePortfolioTier (contractedCapacityKwp / 1000) DEFAULT_RATE_TIERS
  let sitesWithCalcs :=
    contractedSites.filterMap (fun s => calculateSiteWithAllTiers s DEFAULT_RATE_TIERS)
  let totalMonthlyFee := sitesWithCalcs.foldl (fun sum s => sum + s.monthlyFee) 0
  let correctiveDaysAllowed :=
    calculateMonthlyCorrectiveDays (contractedCapacityKwp / 1000)
  let sitesBySpv :=
    sites.foldl (fun m site => bumpSpvCount m (site.spvCode.getD "Unassigned")) []
  { totalSites := sites.length
    contractedSites := contractedSites.length
    totalCapacityKwp := totalCapacityKwp
    contractedCapacityKwp := contractedCapacityKwp
    currentTier := currentTier.map (fun t => t.tierName)
    totalMonthlyFee := totalMonthlyFee
    correctiveDaysAllowed := correctiveDaysAllowed
    sitesBySpv := sitesBySpv }

/-! ### Specification-side derived quantities

These definitions name, independently of the fold inside
`calculateCMDaysTracking`, the per-month accrual and the full-precision
running sums that the spec talks about.  They are assembled from the same
translated code pieces (`getContractedCapacityKwpForMonth`,
`calculateMonthlyCorrectiveDays`, `lookupUsage`, `getMonthsFromStart`). -/

/-- The month accrual of a given month: `calculateMonthlyCorrectiveDays`
applied to that month's contracted capacity converted to MW. -/
def monthAccrual (sites : List Site) (ym : YM) : ℚ :=
  calculateMonthlyCorrectiveDays (getContractedCapacityKwpForMonth sites ym / 1000)

/-- The months enumerated by `calculateCMDaysTracking` (empty when there is
no portfolio start date). -/
def trackedMonths (sites : List Site) (now : YM) : List YM :=
  match getPortfolioStartDate sites with
  | none => []
  | some d => getMonthsFromStart d now

/-- Full-precision running sum of monthly accruals through month index `n`. -/
def cumAccAt (sites : List Site) (now : YM) (n : Nat) : ℚ :=
  (((trackedMonths sites now).take (n + 1)).map (monthAccrual sites)).sum

/-- Full-precision running sum of recorded usage through month index `n`. -/
def cumUsedAt (sites : List Site) (cmDaysUsage : List CMDaysUsage) (now : YM)
    (n : Nat) : ℚ :=
  (((trackedMonths sites now).take (n + 1)).map (lookupUsage cmDaysUsage)).sum

/-- Modelled from the spec: "round-half-away-from-zero semantics at 1 decimal
place" — the magnitude is rounded half up and the sign restored. -/
def roundAway1 (x : ℚ) : ℚ :=
  if 0 ≤ x then ((⌊x * 10 + 1/2⌋ : ℚ)) / 10
  else -(((⌊-(x * 10) + 1/2⌋ : ℚ)) / 10)

/-! ### Raw-record model of the fee calculator

`Site`'s numeric fields are non-optional in the TypeScript type, but the spec
claims the calculator treats missing/undefined numeric inputs as zero.  To
settle that claim the calculator is re-traced over records whose numeric
fields may be absent, with JavaScript number semantics: any arithmetic on
`undefined` yields `NaN`, and `NaN` is absorbing.  `none` stands for
`undefined`/`NaN` (the two behave identically in every operation the
calculator performs). -/

/-- JS `+` over possibly-undefined numbers. -/
def jsAdd : Option ℚ → Option ℚ → Option ℚ
  | some a, some b => some (a + b)
  | _, _ => none

/-- JS `*` over possibly-undefined numbers. -/
def jsMul : Option ℚ → Option ℚ → Option ℚ
  | some a, some b => some (a * b)
  | _, _ => none

/-- JS `/` over possibly-undefined numbers.  The calculator divides only by
divisors guarded away from `0` (and by the constant `12`), so the
division-by-exact-zero branch (JS `Infinity`) is unreachable; it is mapped to
`none` to keep the function total. -/
def jsDiv : Option ℚ → Option ℚ → Option ℚ
  | some a, some b => if b = 0 then none else some (a / b)
  | _, _ => none

/-- A site record whose four numeric inputs may be absent (`undefined`). -/
structure RawSite where
  contractStatus : ContractStatus
  systemSizeKwp : Option ℚ
  pmCost : Option ℚ
  cctvCost : Option ℚ
  cleaningCost : Option ℚ
  deriving DecidableEq

/-- The derived numeric fields of `calculateSiteWithAllTiers` over a raw
record. -/
structure RawCalculations where
  siteFixedCosts : Option ℚ
  portfolioCost_20MW : Option ℚ
  portfolioCost_30MW : Option ℚ
  portfolioCost_40MW : Option ℚ
  fixedFee_20MW : Option ℚ
  fixedFee_30MW : Option ℚ
  fixedFee_40MW : Option ℚ
  feePerKwp_20MW : Option ℚ
  feePerKwp_30MW : Option ℚ
  feePerKwp_40MW : Option ℚ
  monthlyFee : Option ℚ
  deriving DecidableEq

/-- `calculateSiteFixedCosts` over a raw record. -/
def calculateSiteFixedCostsRaw (site : RawSite) : Option ℚ :=
  jsAdd (jsAdd site.pmCost site.cctvCost) site.cleaningCost

/-- `calculateFeePerKwp` over raw numbers: `systemSizeKwp === 0` is a strict
comparison, false for `undefined`/`NaN`. -/
def calculateFeePerKwpRaw (fixedFee systemSizeKwp : Option ℚ)
    (isContracted : Bool) : Option ℚ :=
  if isContracted = false ∨ systemSizeKwp = some 0 then some 0
  else jsDiv fixedFee systemSizeKwp

/-- The body of `calculateSiteWithAllTiersRaw` once the three tier lookups
have succeeded. -/
def assembleSiteCalculationsRaw (site : RawSite)
    (tier20MW tier30MW tier40MW : RateTier) : RawCalculations :=
  let siteFixedCosts := calculateSiteFixedCostsRaw site
  let isContracted := decide (site.contractStatus = ContractStatus.yes)
  let portfolioCost_20MW := jsMul site.systemSizeKwp (some tier20MW.ratePerKwp)
  let portfolioCost_30MW := jsMul site.systemSizeKwp (some tier30MW.ratePerKwp)
  let portfolioCost_40MW := jsMul site.systemSizeKwp (some tier40MW.ratePerKwp)
  let fixedFee_20MW := jsAdd siteFixedCosts portfolioCost_20MW
  let fixedFee_30MW := jsAdd siteFixedCosts portfolioCost_30MW
  let fixedFee_40MW := jsAdd siteFixedCosts portfolioCost_40MW
  { siteFixedCosts := siteFixedCosts
    portfolioCost_20MW := portfolioCost_20MW
    portfolioCost_30MW := portfolioCost_30MW
    portfolioCost_40MW := portfolioCost_40MW
    fixedFee_20MW := fixedFee_20MW
    fixedFee_30MW := fixedFee_30MW
    fixedFee_40MW := fixedFee_40MW
    feePerKwp_20MW := calculateFeePerKwpRaw fixedFee_20MW site.systemSizeKwp isContracted
    feePerKwp_30MW := calculateFeePerKwpRaw fixedFee_30MW site.systemSizeKwp isContracted
    feePerKwp_40MW := calculateFeePerKwpRaw fixedFee_40MW site.systemSizeKwp isContracted
    monthlyFee :=
      if isContracted then jsDiv fixedFee_20MW (some 12) else some 0 }

/-- `calculateSiteWithAllTiers` re-traced over a raw record. -/
def calculateSiteWithAllTiersRaw (site : RawSite) (tiers : List RateTier) :
    Option RawCalculations :=
  match tierLookup tiers "<20MW" 0, tierLookup tiers "20-30MW" 1,
      tierLookup tiers "30-40MW" 2 with
  | some tier20MW, some tier30MW, some tier40MW =>
    some (assembleSiteCalculationsRaw site tier20MW tier30MW tier40MW)
  | _, _, _ => none

/-- View a fully-populated `Site` as a raw record. -/
def toRawSite (site : Site) : RawSite :=
  { contractStatus := site.contractStatus
    systemSizeKwp := some site.systemSizeKwp
    pmCost := some site.pmCost
    cctvCost := some site.cctvCost
    cleaningCost := some site.cleaningCost }

/-- The numeric fields of an exact-model result, as raw values. -/
def toRawCalculations (r : SiteWithCalculations) : RawCalculations :=
  { siteFixedCosts := some r.siteFixedCosts
    portfolioCost_20MW := some r.portfolioCost_20MW
    portfolioCost_30MW := some r.portfolioCost_30MW
    portfolioCost_40MW := some r.portfolioCost_40MW
    fixedFee_20MW := some r.fixedFee_20MW
    fixedFee_30MW := some r.fixedFee_30MW
    fixedFee_40MW := some r.fixedFee_40MW
    feePerKwp_20MW := some r.feePerKwp_20MW
    feePerKwp_30MW := some r.feePerKwp_30MW
    feePerKwp_40MW := some r.feePerKwp_40MW
    monthlyFee := some r.monthlyFee }

/-! ### Concrete example records used by witnesses and counterexamples -/

/-- Build a site record with the fields the calculators read; the remaining
fields are filled with fixed values. -/
def mkSite (i : String) (size : ℚ) (cs : ContractStatus) (ob : Option Date)
    (pm cctv clean : ℚ) : Site :=
  { id := i, name := i, systemSizeKwp := size, siteType := SiteType.rooftop,
    contractStatus := cs, onboardDate := ob, pmCost := pm, cctvCost := cctv,
    cleaningCost := clean, spvId := none, spvCode := none, sourceSheet := none,
    sourceRow := none, createdAt := "", updatedAt := "" }

/-- Build a usage record for a given month. -/
def mkUsage (i : String) (ym : YM) (used : ℚ) : CMDaysUsage :=
  { id := i, yearMonth := ym, daysUsed := used, notes := none,
    createdAt := "", updatedAt := "" }

/-- 15 MW contracted site (first half of the 25 MW portfolio example). -/
def exC1SiteA : Site := mkSite "c1a" 15000 ContractStatus.yes none 0 0 0

/-- 10 MW contracted site (second half of the 25 MW portfolio example). -/
def exC1SiteB : Site := mkSite "c1b" 10000 ContractStatus.yes none 0 0 0

/-- Contracted 10 MW site with costs 500/100/50 (the spec's worked example). -/
def exC2Site : Site := mkSite "c2" 10000 ContractStatus.yes none 500 100 50

/-- A tier table in which the tier named `<20MW` is NOT the first tier. -/
def exC3Tiers : List RateTier :=
  [ { id := "a", tierName := "TopHeavy", minCapacityMW := 0,
      maxCapacityMW := some 20, ratePerKwp := 3 },
    { id := "b", tierName := "<20MW", minCapacityMW := 20,
      maxCapacityMW := some 30, ratePerKwp := 2 },
    { id := "c", tierName := "Z", minCapacityMW := 30,
      maxCapacityMW := none, ratePerKwp := 1 } ]

/-- Contracted site with zero fixed costs and 1200 kWp. -/
def exC3Site : Site := mkSite "c3" 1200 ContractStatus.yes none 0 0 0

/-- Contracted site used for the C3 witness. -/
def exC3WitnessSite : Site := mkSite "c3w" 6000 ContractStatus.yes none 120 0 0

/-- Contracted 12 MW site onboarded 2024-01-15 (the spec's CM-days
scenario). -/
def exC4Site : Site :=
  mkSite "c4" 12000 ContractStatus.yes (some ⟨2024, 1, 15⟩) 0 0 0

/-- Usage record: 2.5 days used in February 2024. -/
def exC4Usage : CMDaysUsage := mkUsage "c4u" ⟨2024, 2⟩ (5/2)

/-- Contracted site onboarded on 2024-02-29, the last day of a leap-year
February. -/
def exC5Site : Site :=
  mkSite "c5" 5000 ContractStatus.yes (some ⟨2024, 2, 29⟩) 0 0 0

/-- Contracted zero-capacity site whose onboarding opens the tracked window. -/
def exC6Site : Site :=
  mkSite "c6" 0 ContractStatus.yes (some ⟨2024, 1, 15⟩) 0 0 0

/-- Usage record: 1.45 days used in January 2024. -/
def exC6Usage : CMDaysUsage := mkUsage "c6u" ⟨2024, 1⟩ (29/20)

/-- Raw record whose `pmCost` is absent (`undefined`). -/
def exC7RawMissing : RawSite :=
  { contractStatus := ContractStatus.yes, systemSizeKwp := some 1000,
    pmCost := none, cctvCost := some 100, cleaningCost := some 50 }

/-- The same raw record with the absent field set to `0`. -/
def exC7RawZeroed : RawSite :=
  { contractStatus := ContractStatus.yes, systemSizeKwp := some 1000,
    pmCost := some 0, cctvCost := some 100, cleaningCost := some 50 }

/-- Fully-populated site used by the C7 witness. -/
def exC7Site : Site := mkSite "c7" 2000 ContractStatus.yes none 10 20 30

/-- Contracted site without an onboard date. -/
def exC8SiteA : Site := mkSite "c8a" 3000 ContractStatus.yes none 1 2 3

/-- Non-contracted site that does carry an onboard date. -/
def exC8SiteB : Site :=
  mkSite "c8b" 4000 ContractStatus.no (some ⟨2023, 6, 1⟩) 4 5 6

/-- Site used by the C10 witness. -/
def exC10Site : Site :=
  mkSite "c10" 7500 ContractStatus.no (some ⟨2022, 3, 31⟩) 7 8 9

/-- The first default tier, as a standalone record. -/
def defaultTier1 : RateTier :=
  { id := "1", tierName := "<20MW", minCapacityMW := 0,
    maxCapacityMW := some 20, ratePerKwp := 2 }

/-- The second default tier, as a standalone record. -/
def defaultTier2 : RateTier :=
  { id := "2", tierName := "20-30MW", minCapacityMW := 20,
    maxCapacityMW := some 30, ratePerKwp := 9/5 }

/-- The third default tier, as a standalone record. -/
def defaultTier3 : RateTier :=
  { id := "3", tierName := "30-40MW", minCapacityMW := 30,
    maxCapacityMW := some 40, ratePerKwp := 17/10 }

/-! ## Helper lemmas -/

/-- A left fold that adds the image of each element equals the starting value
plus the sum of the mapped list (the shape of every `reduce((sum, s) => sum +
f(s), 0)` in the source). -/
theorem foldl_add_map {α : Type} (f : α → ℚ) :
    ∀ (l : List α) (a : ℚ),
      l.foldl (fun sum x => sum + f x) a = a + (l.map f).sum := by
  intro l
  induction l with
  | nil => intro a; simp
  | cons x xs ih => intro a; simp [ih, add_assoc]

/-- Inversion of a successful `calculateSiteWithAllTiers`. -/
theorem calculateSiteWithAllTiers_inv {site : Site} {tiers : List RateTier}
    {r : SiteWithCalculations}
    (h : calculateSiteWithAllTiers site tiers = some r) :
    ∃ t20 t30 t40, tierLookup tiers "<20MW" 0 = some t20 ∧
      tierLookup tiers "20-30MW" 1 = some t30 ∧
      tierLookup tiers "30-40MW" 2 = some t40 ∧
      r = assembleSiteCalculations site t20 t30 t40 := by
  unfold calculateSiteWithAllTiers at h
  split at h
  next t20 t30 t40 h20 h30 h40 =>
    exact ⟨t20, t30, t40, h20, h30, h40, (Option.some.inj h).symm⟩
  next =>
    exact absurd h (by simp)

/-- `calculateFeePerKwp` in guarded form: the fee is the quotient exactly when
the site is contracted and the size is positive (for a non-negative size). -/
theorem calculateFeePerKwp_guard (fixedFee systemSizeKwp : ℚ)
    (isContracted : Bool) (hsz : 0 ≤ systemSizeKwp) :
    calculateFeePerKwp fixedFee systemSizeKwp isContracted =
      if isContracted = true ∧ 0 < systemSizeKwp then fixedFee / systemSizeKwp
      else 0 := by
  rcases eq_or_lt_of_le hsz with h0 | hpos
  · simp [calculateFeePerKwp, ← h0]
  · cases isContracted with
    | false => simp [calculateFeePerKwp]
    | true => simp [calculateFeePerKwp, hpos, hpos.ne']

/-- `dateLe` is reflexive. -/
theorem dateLe_refl (d : Date) : dateLe d d = true := by
  simp [dateLe]

/-- The emitted monthly series has one row per enumerated month. -/
theorem cmDaysLoop_length (sites : List Site) (usage : List CMDaysUsage) :
    ∀ (months : List YM) (ca cu : ℚ),
      (cmDaysLoop sites usage months ca cu).1.length = months.length := by
  intro months
  induction months with
  | nil => intro ca cu; rfl
  | cons ym rest ih => intro ca cu; simp [cmDaysLoop, ih]

/-- The final values of the two running sums are the start values plus the
full-precision sums of the per-month accruals and usages. -/
theorem cmDaysLoop_final (sites : List Site) (usage : List CMDaysUsage) :
    ∀ (months : List YM) (ca cu : ℚ),
      (cmDaysLoop sites usage months ca cu).2 =
        (ca + (months.map (monthAccrual sites)).sum,
         cu + (months.map (lookupUsage usage)).sum) := by
  intro months
  induction months with
  | nil => intro ca cu; simp [cmDaysLoop]
  | cons ym rest ih =>
    intro ca cu
    simp only [cmDaysLoop, ih, List.map_cons, List.sum_cons, Prod.mk.injEq]
    constructor
    · simp only [monthAccrual]; ring
    · ring

/-- Per-row facts independent of position: each emitted row's
`daysAccumulated`, `daysUsed` and `daysRemaining` are computed from its own
month. -/
theorem cmDaysLoop_mem (sites : List Site) (usage : List CMDaysUsage) :
    ∀ (months : List YM) (ca cu : ℚ) (entry : CMDaysMonthData),
      entry ∈ (cmDaysLoop sites usage months ca cu).1 →
      entry.daysAccumulated = round1 (monthAccrual sites entry.yearMonth)
      ∧ entry.daysUsed = lookupUsage usage entry.yearMonth
      ∧ entry.daysRemaining = round1 (monthAccrual sites entry.yearMonth -
          lookupUsage usage entry.yearMonth) := by
  intro months
  induction months with
  | nil => intro ca cu entry h; simp [cmDaysLoop] at h
  | cons ym rest ih =>
    intro ca cu entry h
    simp only [cmDaysLoop, List.mem_cons] at h
    rcases h with heq | hmem
    · subst heq
      exact ⟨rfl, rfl, rfl⟩
    · exact ih _ _ entry hmem

/-- Positional facts: row `n`'s three cumulative fields are the 1-decimal
rounding of the full-precision running sums through month `n`. -/
theorem cmDaysLoop_getElem (sites : List Site) (usage : List CMDaysUsage) :
    ∀ (months : List YM) (ca cu : ℚ) (n : Nat)
      (h : n < (cmDaysLoop sites usage months ca cu).1.length),
      ((cmDaysLoop sites usage months ca cu).1[n]).cumulativeAccumulated =
          round1 (ca + ((months.take (n + 1)).map (monthAccrual sites)).sum)
      ∧ ((cmDaysLoop sites usage months ca cu).1[n]).cumulativeUsed =
          round1 (cu + ((months.take (n + 1)).map (lookupUsage usage)).sum)
      ∧ ((cmDaysLoop sites usage months ca cu).1[n]).cumulativeRemaining =
          round1 ((ca + ((months.take (n + 1)).map (monthAccrual sites)).sum)
            - (cu + ((months.take (n + 1)).map (lookupUsage usage)).sum)) := by
  intro months
  induction months with
  | nil => intro ca cu n h; simp [cmDaysLoop] at h
  | cons ym rest ih =>
    intro ca cu n h
    cases n with
    | zero =>
      refine ⟨?_, ?_, ?_⟩ <;>
        simp [cmDaysLoop, List.take_succ_cons, monthAccrual]
    | succ n =>
      have hlen : n < (cmDaysLoop sites usage rest
          (ca + calculateMonthlyCorrectiveDays
            (getContractedCapacityKwpForMonth sites ym / 1000))
          (cu + lookupUsage usage ym)).1.length := by
        rw [cmDaysLoop_length]
        have hh := h
        rw [cmDaysLoop_length] at hh
        simpa using Nat.lt_of_succ_lt_succ hh
      have ihh := ih
        (ca + calculateMonthlyCorrectiveDays
          (getContractedCapacityKwpForMonth sites ym / 1000))
        (cu + lookupUsage usage ym) n hlen
      refine ⟨?_, ?_, ?_⟩
      · rw [show ((cmDaysLoop sites usage (ym :: rest) ca cu).1[n + 1]) =
            ((cmDaysLoop sites usage rest
              (ca + calculateMonthlyCorrectiveDays
                (getContractedCapacityKwpForMonth sites ym / 1000))
              (cu + lookupUsage usage ym)).1[n]) from by
            simp [cmDaysLoop]]
        rw [ihh.1]
        simp only [List.take_succ_cons, List.map_cons, List.sum_cons,
          monthAccrual]
        congr 1
        ring
      · rw [show ((cmDaysLoop sites usage (ym :: rest) ca cu).1[n + 1]) =
            ((cmDaysLoop sites usage rest
              (ca + calculateMonthlyCorrectiveDays
                (getContractedCapacityKwpForMonth sites ym / 1000))
              (cu + lookupUsage usage ym)).1[n]) from by
            simp [cmDaysLoop]]
        rw [ihh.2.1]
        simp only [List.take_succ_cons, List.map_cons, List.sum_cons,
          monthAccrual]
        congr 1
        ring
      · rw [show ((cmDaysLoop sites usage (ym :: rest) ca cu).1[n + 1]) =
            ((cmDaysLoop sites usage rest
              (ca + calculateMonthlyCorrectiveDays
                (getContractedCapacityKwpForMonth sites ym / 1000))
              (cu + lookupUsage usage ym)).1[n]) from by
            simp [cmDaysLoop]]
        rw [ihh.2.2]
        simp only [List.take_succ_cons, List.map_cons, List.sum_cons,
          monthAccrual]
        congr 1
        ring

/-- The tracked monthly series is the loop run over `trackedMonths` from zero
accumulators. -/
theorem calculateCMDaysTracking_monthlyData (sites : List Site)
    (usage : List CMDaysUsage) (now : YM) :
    (calculateCMDaysTracking sites usage now).monthlyData =
      (cmDaysLoop sites usage (trackedMonths sites now) 0 0).1 := by
  unfold calculateCMDaysTracking trackedMonths
  cases h : getPortfolioStartDate sites <;> simp [cmDaysLoop]

/-- The three totals are the 1-decimal rounding of the full-precision sums
over the whole tracked window. -/
theorem calculateCMDaysTracking_totals (sites : List Site)
    (usage : List CMDaysUsage) (now : YM) :
    (calculateCMDaysTracking sites usage now).totalAccumulated =
        round1 (((trackedMonths sites now).map (monthAccrual sites)).sum)
    ∧ (calculateCMDaysTracking sites usage now).totalUsed =
        round1 (((trackedMonths sites now).map (lookupUsage usage)).sum)
    ∧ (calculateCMDaysTracking sites usage now).totalRemaining =
        round1 ((((trackedMonths sites now).map (monthAccrual sites)).sum)
          - (((trackedMonths sites now).map (lookupUsage usage)).sum)) := by
  unfold calculateCMDaysTracking trackedMonths
  cases h : getPortfolioStartDate sites with
  | none =>
    have h0 : round1 0 = 0 := by norm_num [round1, jsRound]
    simp [h0]
  | some d =>
    simp [cmDaysLoop_final]

/-- `new Date(year, month, 0)` with a 1-indexed month in `1..12` is the last
calendar day of that month (variable month lengths and leap years included). -/
theorem jsEndOfMonth_eq (y m : Nat) (h1 : 1 ≤ m) (h2 : m ≤ 12) :
    jsEndOfMonth y m = ⟨y, m, daysInMonth y m⟩ := by
  interval_cases m <;> simp [jsEndOfMonth, prevCalendarDay, daysInMonth]

/-- Lifting `calculateFeePerKwp` to present raw operands agrees with the
exact calculator. -/
theorem calculateFeePerKwpRaw_some (fee size : ℚ) (c : Bool) :
    calculateFeePerKwpRaw (some fee) (some size) c =
      some (calculateFeePerKwp fee size c) := by
  by_cases h : c = false ∨ size = 0
  · have h2 : c = false ∨ (some size : Option ℚ) = some 0 := by
      rcases h with h | h
      · exact Or.inl h
      · exact Or.inr (by rw [h])
    rw [calculateFeePerKwpRaw, if_pos h2, calculateFeePerKwp, if_pos h]
  · have h2 : ¬(c = false ∨ (some size : Option ℚ) = some 0) := by
      intro hc
      apply h
      rcases hc with hc | hc
      · exact Or.inl hc
      · exact Or.inr (Option.some.inj hc)
    have hsz : ¬ size = 0 := fun hs => h (Or.inr hs)
    rw [calculateFeePerKwpRaw, if_neg h2, calculateFeePerKwp, if_neg h]
    simp [jsDiv, hsz]

/-- On a fully-populated record the raw calculator body agrees with the exact
calculator body, fieldwise. -/
theorem assembleRaw_toRaw (site : Site) (t20 t30 t40 : RateTier) :
    assembleSiteCalculationsRaw (toRawSite site) t20 t30 t40 =
      toRawCalculations (assembleSiteCalculations site t20 t30 t40) := by
  have h12 : (12 : ℚ) ≠ 0 := by norm_num
  by_cases hcs : site.contractStatus = ContractStatus.yes <;>
    simp [assembleSiteCalculationsRaw, assembleSiteCalculations, toRawSite,
      toRawCalculations, calculateSiteFixedCostsRaw, calculateSiteFixedCosts,
      jsAdd, jsMul, jsDiv, calculatePortfolioCost, calculateFixedFee,
      calculateMonthlyFee, calculateFeePerKwpRaw_some, hcs, h12]

/-! ## Claim theorems -/

/-- Claim C10: the `SiteWithCalculations` returned by
`calculateSiteWithAllTiers` carries every field of the input `Site`
unchanged (its embedded `Site` record is the input record itself), only
adding the derived fee fields; the model is a pure function, so the input
record is not mutated. -/
theorem claim_C10_frame_preservation (site : Site) (tiers : List RateTier)
    (r : SiteWithCalculations)
    (h : calculateSiteWithAllTiers site tiers = some r) :
    r.toSite = site := by
  obtain ⟨t20, t30, t40, _, _, _, rfl⟩ := calculateSiteWithAllTiers_inv h
  rfl

/-- Witness for C10 at a concrete site and the default tier table. -/
theorem claim_C10_frame_preservation_witness :
    (assembleSiteCalculations exC10Site defaultTier1 defaultTier2
      defaultTier3).toSite = exC10Site :=
  claim_C10_frame_preservation exC10Site DEFAULT_RATE_TIERS _ rfl

/-- Claim C2: for every site with non-negative `systemSizeKwp` and every
tier, `feePerKwp` equals `fixedFee / systemSizeKwp` exactly when the site is
contracted and `systemSizeKwp > 0`, and equals `0` otherwise, so the division
is never performed with a zero divisor. -/
theorem claim_C2_fee_per_kwp_guard :
    (∀ (fixedFee systemSizeKwp : ℚ) (isContracted : Bool),
        0 ≤ systemSizeKwp →
        calculateFeePerKwp fixedFee systemSizeKwp isContracted =
          if isContracted = true ∧ 0 < systemSizeKwp then
            fixedFee / systemSizeKwp
          else 0)
    ∧ (∀ (site : Site) (tiers : List RateTier) (r : SiteWithCalculations),
        0 ≤ site.systemSizeKwp →
        calculateSiteWithAllTiers site tiers = some r →
          (r.feePerKwp_20MW =
            if site.contractStatus = ContractStatus.yes ∧ 0 < site.systemSizeKwp
            then r.fixedFee_20MW / site.systemSizeKwp else 0)
          ∧ (r.feePerKwp_30MW =
            if site.contractStatus = ContractStatus.yes ∧ 0 < site.systemSizeKwp
            then r.fixedFee_30MW / site.systemSizeKwp else 0)
          ∧ (r.feePerKwp_40MW =
            if site.contractStatus = ContractStatus.yes ∧ 0 < site.systemSizeKwp
            then r.fixedFee_40MW / site.systemSizeKwp else 0)) := by
  constructor
  · exact calculateFeePerKwp_guard
  · intro site tiers r hsz h
    obtain ⟨t20, t30, t40, _, _, _, rfl⟩ := calculateSiteWithAllTiers_inv h
    simp only [assembleSiteCalculations]
    rw [calculateFeePerKwp_guard _ _ _ hsz, calculateFeePerKwp_guard _ _ _ hsz,
      calculateFeePerKwp_guard _ _ _ hsz]
    simp [decide_eq_true_eq]

/-- Witness for C2 at the spec's worked example (`fixedFee = 20650`,
`systemSizeKwp = 10000`, contracted). -/
theorem claim_C2_fee_per_kwp_guard_witness :
    calculateFeePerKwp 20650 10000 true =
      if true = true ∧ (0:ℚ) < 10000 then (20650:ℚ) / 10000 else 0 :=
  claim_C2_fee_per_kwp_guard.1 20650 10000 true (by norm_num)

/-- Counterexample to claim C3 as stated: on a tier table whose tier named
`<20MW` is not the first tier, a contracted site's `monthlyFee` is priced at
the named tier (rate 2, giving 200/month), not at the table's first tier
(rate 3, which would give 300/month). -/
theorem claim_C3_counterexample :
    (calculateSiteWithAllTiers exC3Site exC3Tiers).map (fun r => r.monthlyFee)
        = some 200
    ∧ exC3Tiers.head? = some ⟨"a", "TopHeavy", 0, some 20, 3⟩
    ∧ calculateMonthlyFee (calculateFixedFee (calculateSiteFixedCosts exC3Site)
        (calculatePortfolioCost exC3Site.systemSizeKwp 3)) = 300
    ∧ (200 : ℚ) ≠ 300 := by
  refine ⟨?_, rfl, ?_, by norm_num⟩
  · norm_num +decide [calculateSiteWithAllTiers, tierLookup, exC3Tiers, exC3Site,
      mkSite, List.find?, assembleSiteCalculations, calculateSiteFixedCosts,
      calculatePortfolioCost, calculateFixedFee, calculateMonthlyFee,
      calculateFeePerKwp]
  · norm_num [exC3Site, mkSite, calculateSiteFixedCosts, calculatePortfolioCost,
      calculateFixedFee, calculateMonthlyFee]

/-- Claim C3 (amended): a site's `monthlyFee` is the fixed fee computed at
the tier found by the name `<20MW` — which falls back to the table's first
tier only when no tier carries that name — divided by 12 when the site is
contracted, and exactly `0` when it is not, regardless of cost and size
fields; in the default table the `<20MW` tier is the first tier, so the two
readings coincide there. -/
theorem claim_C3_monthly_fee_amended :
    (∀ (site : Site) (tiers : List RateTier) (t20 : RateTier)
        (r : SiteWithCalculations),
        tierLookup tiers "<20MW" 0 = some t20 →
        calculateSiteWithAllTiers site tiers = some r →
        r.monthlyFee =
          if site.contractStatus = ContractStatus.yes then
            calculateMonthlyFee (calculateFixedFee (calculateSiteFixedCosts site)
              (calculatePortfolioCost site.systemSizeKwp t20.ratePerKwp))
          else 0)
    ∧ tierLookup DEFAULT_RATE_TIERS "<20MW" 0 = DEFAULT_RATE_TIERS.head? := by
  constructor
  · intro site tiers t20 r h20 h
    obtain ⟨t20b, t30, t40, h20b, _, _, rfl⟩ := calculateSiteWithAllTiers_inv h
    obtain rfl : t20b = t20 := Option.some.inj (h20b.symm.trans h20)
    simp only [assembleSiteCalculations]
    by_cases hcs : site.contractStatus = ContractStatus.yes <;> simp [hcs]
  · rfl

/-- Counterexample to claim C9 as stated: in the default tier table NO tier
has `maxCapacityMW = null` (so "exactly one tier has `maxCapacityMW = null`"
fails), and at the non-negative capacity 50 MW no tier's guard matches, so
the selection reaches the defensive fallback and returns the last (bounded)
tier — the fallback is reachable. -/
theorem claim_C9_counterexample :
    (DEFAULT_RATE_TIERS.filter (fun t => t.maxCapacityMW.isNone)).length = 0
    ∧ DEFAULT_RATE_TIERS.find? (tierMatchB 50) = none
    ∧ determinePortfolioTier 50 DEFAULT_RATE_TIERS = some defaultTier3 := by
  refine ⟨rfl, rfl, rfl⟩

/-- Claim C9 (amended): the default tier table is ordered by increasing
capacity and leaves no capacity gaps from 0 up to its 40 MW ceiling (minima
`[0, 20, 30]`, maxima `[20, 30, 40]`), but no tier has `maxCapacityMW =
null`; consequently the fallback to the last tier IS reachable: every
capacity of at least 40 MW matches no tier and is resolved to the last tier
(`30-40MW`) only by the fallback, while every capacity in `[0, 40)` matches
some tier. -/
theorem claim_C9_default_tiers_amended :
    DEFAULT_RATE_TIERS.map (fun t => t.minCapacityMW) = [0, 20, 30]
    ∧ DEFAULT_RATE_TIERS.map (fun t => t.maxCapacityMW)
        = [some 20, some 30, some 40]
    ∧ (∀ c : ℚ, 0 ≤ c → c < 40 →
        ∃ t ∈ DEFAULT_RATE_TIERS, tierMatchB c t = true)
    ∧ (∀ c : ℚ, 40 ≤ c →
        (∀ t ∈ DEFAULT_RATE_TIERS, tierMatchB c t = false) ∧
        determinePortfolioTier c DEFAULT_RATE_TIERS = some defaultTier3) := by
  refine ⟨rfl, rfl, ?_, ?_⟩
  · intro c h0 h40
    by_cases h20 : c < 20
    · refine ⟨defaultTier1, List.mem_cons_self _ _, ?_⟩
      simp [tierMatchB, defaultTier1]
      exact h20
    · by_cases h30 : c < 30
      · refine ⟨defaultTier2,
          List.mem_cons_of_mem _ (List.mem_cons_self _ _), ?_⟩
        simp [tierMatchB, defaultTier2]
        exact h30
      · refine ⟨defaultTier3,
          List.mem_cons_of_mem _ (List.mem_cons_of_mem _
            (List.mem_cons_self _ _)), ?_⟩
        simp [tierMatchB, defaultTier3]
        exact h40
  · intro c h40
    have hall : ∀ t ∈ DEFAULT_RATE_TIERS, tierMatchB c t = false := by
      intro t ht
      simp only [DEFAULT_RATE_TIERS, List.mem_cons, List.not_mem_nil,
        or_false] at ht
      rcases ht with rfl | rfl | rfl <;>
        · simp only [tierMatchB]
          exact decide_eq_false (by intro hlt; linarith)
    refine ⟨hall, ?_⟩
    have hfind : DEFAULT_RATE_TIERS.find? (tierMatchB c) = none :=
      List.find?_eq_none.mpr (fun t ht => by simp [hall t ht])
    have hlast : determinePortfolioTier c DEFAULT_RATE_TIERS =
        DEFAULT_RATE_TIERS.getLast? := by
      simp [determinePortfolioTier, hfind]
    rw [hlast]
    rfl

/-- Witness for C9 (amended) at capacity 50 MW: the fallback fires. -/
theorem claim_C9_default_tiers_amended_witness :
    determinePortfolioTier 50 DEFAULT_RATE_TIERS = some defaultTier3 :=
  (claim_C9_default_tiers_amended.2.2.2 50 (by norm_num)).2

/-- Claim C8: when no contracted site has an onboard date (including an empty
site list), `calculateCMDaysTracking` returns the defined empty state — null
start date, empty monthly series, all totals zero — rather than an error. -/
theorem claim_C8_empty_state (sites : List Site)
    (cmDaysUsage : List CMDaysUsage) (now : YM)
    (h : ∀ s ∈ sites, s.contractStatus = ContractStatus.yes →
      s.onboardDate = none) :
    calculateCMDaysTracking sites cmDaysUsage now =
      { portfolioStartDate := none, monthlyData := [], totalAccumulated := 0,
        totalUsed := 0, totalRemaining := 0 } := by
  have hfilter : sites.filter (fun s =>
      decide (s.contractStatus = ContractStatus.yes) && s.onboardDate.isSome)
      = [] := by
    rw [List.filter_eq_nil_iff]
    intro s hs
    by_cases hcs : s.contractStatus = ContractStatus.yes
    · simp [hcs, h s hs hcs]
    · simp [hcs]
  have hstart : getPortfolioStartDate sites = none := by
    simp [getPortfolioStartDate, hfilter]
  simp [calculateCMDaysTracking, hstart]

/-- Witness for C8: two sites — a contracted one without an onboard date and
a non-contracted one with one — produce the empty tracking state. -/
theorem claim_C8_empty_state_witness :
    calculateCMDaysTracking [exC8SiteA, exC8SiteB] [] ⟨2025, 6⟩ =
      { portfolioStartDate := none, monthlyData := [], totalAccumulated := 0,
        totalUsed := 0, totalRemaining := 0 } :=
  claim_C8_empty_state _ _ _ (by decide)

/-- Claim C1: the portfolio summary's current tier is obtained by converting
contracted capacity to MW (`contractedCapacityKwp / 1000`) and selecting the
first tier in table order whose `maxCapacityMW` is `null` or strictly greater
than that capacity; a capacity exactly equal to a tier's `maxCapacityMW`
bound does not match that tier (it falls to a later one); if no tier matches,
the last tier of the table is returned; and a portfolio of contracted sites
totalling 25 MW resolves to the `20-30MW` tier. -/
theorem claim_C1_tier_selection :
    (∀ sites : List Site,
        (calculatePortfolioSummary sites).currentTier =
          (determinePortfolioTier
            ((calculatePortfolioSummary sites).contractedCapacityKwp / 1000)
            DEFAULT_RATE_TIERS).map (fun t => t.tierName))
    ∧ (∀ (c : ℚ) (pre : List RateTier) (t : RateTier) (post : List RateTier),
        (∀ u ∈ pre, tierMatchB c u = false) → tierMatchB c t = true →
        determinePortfolioTier c (pre ++ t :: post) = some t)
    ∧ (∀ (t : RateTier) (m : ℚ), t.maxCapacityMW = some m →
        tierMatchB m t = false)
    ∧ (∀ (c : ℚ) (tiers : List RateTier),
        (∀ t ∈ tiers, tierMatchB c t = false) →
        determinePortfolioTier c tiers = tiers.getLast?)
    ∧ (calculatePortfolioSummary [exC1SiteA, exC1SiteB]).contractedCapacityKwp
        = 25000
    ∧ (calculatePortfolioSummary [exC1SiteA, exC1SiteB]).currentTier
        = some "20-30MW" := by
  refine ⟨?_, ?_, ?_, ?_, ?_, ?_⟩
  · intro sites; rfl
  · intro c pre t post hpre ht
    have hfind : (pre ++ t :: post).find? (tierMatchB c) = some t := by
      induction pre with
      | nil => exact List.find?_cons_of_pos _ ht
      | cons u us ih =>
        rw [List.cons_append, List.find?_cons_of_neg]
        · exact ih (fun v hv => hpre v (List.mem_cons_of_mem u hv))
        · simp [hpre u (List.mem_cons_self u us)]
    simp [determinePortfolioTier, hfind]
  · intro t m hm
    simp [tierMatchB, hm, lt_irrefl]
  · intro c tiers hnone
    have hfind : tiers.find? (tierMatchB c) = none :=
      List.find?_eq_none.mpr (fun x hx => by simp [hnone x hx])
    simp [determinePortfolioTier, hfind]
  · norm_num +decide [calculatePortfolioSummary, exC1SiteA, exC1SiteB, mkSite,
      List.filter]
  · norm_num +decide [calculatePortfolioSummary, exC1SiteA, exC1SiteB, mkSite,
      List.filter, determinePortfolioTier, DEFAULT_RATE_TIERS, tierMatchB,
      List.find?]

/-- Witness for C1 at capacity 25 MW over the default table: the first
matching tier is `20-30MW`. -/
theorem claim_C1_tier_selection_witness :
    determinePortfolioTier 25 DEFAULT_RATE_TIERS = some defaultTier2 := by
  have h := claim_C1_tier_selection.2.1 25 [defaultTier1] defaultTier2
    [defaultTier3]
    (by intro u hu
        rw [List.mem_singleton.mp hu]
        simp [defaultTier1, tierMatchB,
          decide_eq_false (by norm_num : ¬ (25:ℚ) < 20)])
    (by simp [defaultTier2, tierMatchB,
          decide_eq_true (by norm_num : (25:ℚ) < 30)])
  exact h

/-- Witness for C3 (amended) at a concrete contracted site and the default
tier table. -/
theorem claim_C3_monthly_fee_amended_witness :
    (assembleSiteCalculations exC3WitnessSite defaultTier1 defaultTier2
        defaultTier3).monthlyFee =
      if exC3WitnessSite.contractStatus = ContractStatus.yes then
        calculateMonthlyFee (calculateFixedFee
          (calculateSiteFixedCosts exC3WitnessSite)
          (calculatePortfolioCost exC3WitnessSite.systemSizeKwp
            defaultTier1.ratePerKwp))
      else 0 :=
  claim_C3_monthly_fee_amended.1 exC3WitnessSite DEFAULT_RATE_TIERS
    defaultTier1 _ rfl rfl

/-- Claim C4: for every month `n` of the emitted series, the emitted
`cumulativeRemaining` equals `cumulativeAccumulated(n) − cumulativeUsed(n)`
rounded to 1 decimal place, where the two running sums are maintained
chronologically at full precision (the sums of the per-month accruals and of
the recorded usages) and rounding is applied only to the emitted value, not
carried into the accumulation. -/
theorem claim_C4_cumulative_remaining (sites : List Site)
    (cmDaysUsage : List CMDaysUsage) (now : YM) (n : Nat)
    (h : n <
      (calculateCMDaysTracking sites cmDaysUsage now).monthlyData.length) :
    (((calculateCMDaysTracking sites cmDaysUsage
        now).monthlyData)[n]).cumulativeRemaining
      = round1 (cumAccAt sites now n - cumUsedAt sites cmDaysUsage now n) := by
  simp only [calculateCMDaysTracking_monthlyData sites cmDaysUsage now]
    at h ⊢
  rw [(cmDaysLoop_getElem sites cmDaysUsage (trackedMonths sites now)
    0 0 n h).2.2]
  simp [cumAccAt, cumUsedAt]

/-- Witness for C4 on the spec's scenario (12 MW site onboarded 2024-01-15,
2.5 days used in 2024-02, queried in 2024-04) at month index 1. -/
theorem claim_C4_cumulative_remaining_witness :
    (((calculateCMDaysTracking [exC4Site] [exC4Usage]
          ⟨2024, 4⟩).monthlyData).get ⟨1, by decide⟩).cumulativeRemaining
      = round1 (cumAccAt [exC4Site] ⟨2024, 4⟩ 1
          - cumUsedAt [exC4Site] [exC4Usage] ⟨2024, 4⟩ 1) :=
  claim_C4_cumulative_remaining [exC4Site] [exC4Usage] ⟨2024, 4⟩ 1 (by decide)

/-- Claim C5: for every month of the CM-days series, the accrual capacity
base is the sum of `systemSizeKwp` over contracted sites whose onboard date
is on or before the last calendar day of that month — the `new Date(y, m, 0)`
construction resolves to that last day, correctly handling variable month
lengths and leap years — converted to MW by dividing by 1000; in particular a
contracted site onboarded exactly on the last calendar day of the month
passes the capacity filter for that month. -/
theorem claim_C5_month_capacity :
    (∀ (y m : Nat), 1 ≤ m → m ≤ 12 →
        jsEndOfMonth y m = ⟨y, m, daysInMonth y m⟩)
    ∧ (∀ (sites : List Site) (ym : YM), 1 ≤ ym.month → ym.month ≤ 12 →
        getContractedCapacityKwpForMonth sites ym =
          ((sites.filter (fun s =>
              match s.onboardDate with
              | none => false
              | some onboardDate =>
                decide (s.contractStatus = ContractStatus.yes) &&
                  dateLe onboardDate
                    ⟨ym.year, ym.month, daysInMonth ym.year ym.month⟩)).map
            (fun s => s.systemSizeKwp)).sum)
    ∧ (∀ (sites : List Site) (ym : YM) (s : Site), 1 ≤ ym.month →
        ym.month ≤ 12 → s ∈ sites → s.contractStatus = ContractStatus.yes →
        s.onboardDate =
          some ⟨ym.year, ym.month, daysInMonth ym.year ym.month⟩ →
        s ∈ sites.filter (fun s2 =>
          match s2.onboardDate with
          | none => false
          | some onboardDate =>
            decide (s2.contractStatus = ContractStatus.yes) &&
              dateLe onboardDate (jsEndOfMonth ym.year ym.month)))
    ∧ (∀ (sites : List Site) (usage : List CMDaysUsage) (now : YM)
        (entry : CMDaysMonthData),
        entry ∈ (calculateCMDaysTracking sites usage now).monthlyData →
        entry.daysAccumulated = round1 (calculateMonthlyCorrectiveDays
          (getContractedCapacityKwpForMonth sites entry.yearMonth / 1000))) := by
  refine ⟨jsEndOfMonth_eq, ?_, ?_, ?_⟩
  · intro sites ym h1 h2
    simp only [getContractedCapacityKwpForMonth,
      jsEndOfMonth_eq ym.year ym.month h1 h2]
    rw [foldl_add_map (fun s : Site => s.systemSizeKwp)]
    rw [zero_add]
  · intro sites ym s h1 h2 hmem hcs hd
    rw [List.mem_filter]
    refine ⟨hmem, ?_⟩
    rw [hd, jsEndOfMonth_eq ym.year ym.month h1 h2]
    simp [hcs, dateLe_refl]
  · intro sites usage now entry hmem
    rw [calculateCMDaysTracking_monthlyData] at hmem
    have h := (cmDaysLoop_mem sites usage (trackedMonths sites now)
      0 0 entry hmem).1
    simpa [monthAccrual] using h

/-- Witness for C5: February 2024 (a leap month) resolves to the last day
2024-02-29, and a contracted site onboarded on exactly that day is counted
in that month's capacity. -/
theorem claim_C5_month_capacity_witness :
    jsEndOfMonth 2024 2 = ⟨2024, 2, daysInMonth 2024 2⟩
    ∧ getContractedCapacityKwpForMonth [exC5Site] ⟨2024, 2⟩ =
        (([exC5Site].filter (fun s =>
            match s.onboardDate with
            | none => false
            | some onboardDate =>
              decide (s.contractStatus = ContractStatus.yes) &&
                dateLe onboardDate ⟨2024, 2, daysInMonth 2024 2⟩)).map
          (fun s => s.systemSizeKwp)).sum :=
  ⟨claim_C5_month_capacity.1 2024 2 (by norm_num) (by norm_num),
   claim_C5_month_capacity.2.1 [exC5Site] ⟨2024, 2⟩ (by norm_num)
     (by norm_num)⟩

/-- Counterexample to claim C6 as stated: the code rounds with JS
`Math.round` semantics (half toward positive infinity), not half away from
zero.  On a tracked month with zero accrual and 1.45 days used, the emitted
`daysRemaining` is `-1.4`, while round-half-away-from-zero semantics would
emit `-1.5`. -/
theorem claim_C6_counterexample :
    (calculateCMDaysTracking [exC6Site] [exC6Usage] ⟨2024, 1⟩).monthlyData.map
        (fun e => e.daysRemaining) = [-(7/5)]
    ∧ roundAway1 (0 - 29/20) = -(3/2)
    ∧ ((-(7/5) : ℚ) ≠ -(3/2)) := by
  refine ⟨?_, by norm_num [roundAway1], by norm_num⟩
  have hm1 : ∀ s, monthsLoop 1 s = [s] := fun s => rfl
  norm_num +decide [calculateCMDaysTracking, getPortfolioStartDate, exC6Site,
    exC6Usage, mkSite, mkUsage, sortDatesAsc, insertDateSorted,
    getMonthsFromStart, ymIndex, nextYM, cmDaysLoop, lookupUsage,
    getContractedCapacityKwpForMonth, jsEndOfMonth, prevCalendarDay,
    daysInMonth, isLeapYear, dateLe, calculateMonthlyCorrectiveDays, round1,
    jsRound, List.filter, List.find?, List.reverse, List.filterMap,
    List.foldr, List.head?, hm1]

/-- Claim C6 (amended): every emitted CM-days value (`daysAccumulated`,
`daysRemaining`, the cumulative fields, the three totals, and the portfolio
summary's `correctiveDaysAllowed`) is rounded to 1 decimal place with JS
`Math.round` semantics — half toward positive infinity — applied
independently to each output field.  This coincides with
round-half-away-from-zero for non-negative values, but a negative value
exactly half way between two 1-decimal steps is rounded toward zero: a
`daysRemaining` of −1.45 is emitted as −1.4, not −1.5. -/
theorem claim_C6_rounding_amended :
    (∀ x : ℚ, 0 ≤ x → round1 x = roundAway1 x)
    ∧ (round1 (-(29/20)) = -(7/5) ∧ roundAway1 (-(29/20)) = -(3/2))
    ∧ (∀ (sites : List Site) (usage : List CMDaysUsage) (now : YM)
        (entry : CMDaysMonthData),
        entry ∈ (calculateCMDaysTracking sites usage now).monthlyData →
        entry.daysAccumulated = round1 (monthAccrual sites entry.yearMonth)
        ∧ entry.daysRemaining = round1 (monthAccrual sites entry.yearMonth -
            lookupUsage usage entry.yearMonth))
    ∧ (∀ (sites : List Site) (usage : List CMDaysUsage) (now : YM) (n : Nat)
        (h : n < (calculateCMDaysTracking sites usage now).monthlyData.length),
        (((calculateCMDaysTracking sites usage
            now).monthlyData)[n]).cumulativeAccumulated
            = round1 (cumAccAt sites now n)
        ∧ (((calculateCMDaysTracking sites usage
            now).monthlyData)[n]).cumulativeUsed
            = round1 (cumUsedAt sites usage now n))
    ∧ (∀ (sites : List Site) (usage : List CMDaysUsage) (now : YM),
        (calculateCMDaysTracking sites usage now).totalAccumulated =
            round1 (((trackedMonths sites now).map (monthAccrual sites)).sum)
        ∧ (calculateCMDaysTracking sites usage now).totalUsed =
            round1 (((trackedMonths sites now).map (lookupUsage usage)).sum)
        ∧ (calculateCMDaysTracking sites usage now).totalRemaining =
            round1 ((((trackedMonths sites now).map (monthAccrual sites)).sum)
              - ((trackedMonths sites now).map (lookupUsage usage)).sum))
    ∧ (∀ sites : List Site,
        (calculatePortfolioSummary sites).correctiveDaysAllowed =
          round1 ((calculatePortfolioSummary sites).contractedCapacityKwp
            / 1000 / 12)) := by
  refine ⟨?_, ⟨?_, ?_⟩, ?_, ?_, ?_, ?_⟩
  · intro x hx
    simp [round1, roundAway1, jsRound, hx]
  · norm_num [round1, jsRound]
  · norm_num [roundAway1]
  · intro sites usage now entry hmem
    rw [calculateCMDaysTracking_monthlyData] at hmem
    have h := cmDaysLoop_mem sites usage (trackedMonths sites now)
      0 0 entry hmem
    exact ⟨h.1, h.2.2⟩
  · intro sites usage now n h
    simp only [calculateCMDaysTracking_monthlyData sites usage now] at h ⊢
    have hg := cmDaysLoop_getElem sites usage (trackedMonths sites now)
      0 0 n h
    refine ⟨?_, ?_⟩
    · rw [hg.1]; simp [cumAccAt]
    · rw [hg.2.1]; simp [cumUsedAt]
  · exact calculateCMDaysTracking_totals
  · intro sites
    rfl

/-- Witness for C6 (amended): `round1` and the away-from-zero rounding agree
at the non-negative input 1.45. -/
theorem claim_C6_rounding_amended_witness :
    round1 (29/20) = roundAway1 (29/20) :=
  claim_C6_rounding_amended.1 (29/20) (by norm_num)

/-- Counterexample to claim C7 as stated: the calculator does NOT treat an
absent (`undefined`) numeric field as zero — JS arithmetic turns it into
`NaN` (modelled as `none`), which propagates into the derived fields, so the
result differs from the record with the field set to `0`. -/
theorem claim_C7_counterexample :
    calculateSiteWithAllTiersRaw exC7RawMissing DEFAULT_RATE_TIERS ≠
      calculateSiteWithAllTiersRaw exC7RawZeroed DEFAULT_RATE_TIERS
    ∧ (calculateSiteWithAllTiersRaw exC7RawMissing DEFAULT_RATE_TIERS).map
        (fun r => r.siteFixedCosts) = some none := by
  constructor
  · intro hcontra
    have h1 : (calculateSiteWithAllTiersRaw exC7RawMissing
          DEFAULT_RATE_TIERS).map (fun r => r.siteFixedCosts)
        = (calculateSiteWithAllTiersRaw exC7RawZeroed
          DEFAULT_RATE_TIERS).map (fun r => r.siteFixedCosts) := by
      rw [hcontra]
    rw [show (calculateSiteWithAllTiersRaw exC7RawMissing
          DEFAULT_RATE_TIERS).map (fun r => r.siteFixedCosts)
        = some none from rfl] at h1
    rw [show (calculateSiteWithAllTiersRaw exC7RawZeroed
          DEFAULT_RATE_TIERS).map (fun r => r.siteFixedCosts)
        = some (some (0 + 100 + 50)) from rfl] at h1
    simp at h1
  · rfl

/-- Claim C7 (amended): the site fee calculator is total on the default tier
table (it never throws), and on fully-populated records the raw-number
semantics agrees with the exact calculator; but a missing/undefined numeric
input is NOT defaulted to zero — it propagates as `NaN` (`none`) into the
derived fields. -/
theorem claim_C7_defensive_amended :
    (∀ raw : RawSite,
        (calculateSiteWithAllTiersRaw raw DEFAULT_RATE_TIERS).isSome = true)
    ∧ (∀ site : Site,
        calculateSiteWithAllTiersRaw (toRawSite site) DEFAULT_RATE_TIERS =
          (calculateSiteWithAllTiers site DEFAULT_RATE_TIERS).map
            toRawCalculations)
    ∧ (∀ (raw : RawSite) (r : RawCalculations), raw.pmCost = none →
        calculateSiteWithAllTiersRaw raw DEFAULT_RATE_TIERS = some r →
        r.siteFixedCosts = none ∧ r.fixedFee_20MW = none) := by
  refine ⟨?_, ?_, ?_⟩
  · intro raw
    rfl
  · intro site
    have h1 : calculateSiteWithAllTiersRaw (toRawSite site)
        DEFAULT_RATE_TIERS = some (assembleSiteCalculationsRaw (toRawSite site)
          defaultTier1 defaultTier2 defaultTier3) := rfl
    have h2 : calculateSiteWithAllTiers site DEFAULT_RATE_TIERS =
        some (assembleSiteCalculations site defaultTier1 defaultTier2
          defaultTier3) := rfl
    rw [h1, h2]
    simp [assembleRaw_toRaw]
  · intro raw r hpm h
    have hred : calculateSiteWithAllTiersRaw raw DEFAULT_RATE_TIERS =
        some (assembleSiteCalculationsRaw raw defaultTier1 defaultTier2
          defaultTier3) := rfl
    rw [hred] at h
    obtain rfl := (Option.some.inj h).symm
    constructor
    · simp [assembleSiteCalculationsRaw, calculateSiteFixedCostsRaw, hpm,
        jsAdd]
    · simp [assembleSiteCalculationsRaw, calculateSiteFixedCostsRaw, hpm,
        jsAdd]

/-- Witness for C7 (amended): the record with an absent `pmCost` yields
`NaN` fixed costs and `NaN` fixed fee. -/
theorem claim_C7_defensive_amended_witness :
    (assembleSiteCalculationsRaw exC7RawMissing defaultTier1 defaultTier2
        defaultTier3).siteFixedCosts = none
    ∧ (assembleSiteCalculationsRaw exC7RawMissing defaultTier1 defaultTier2
        defaultTier3).fixedFee_20MW = none :=
  claim_C7_defensive_amended.2.2 exC7RawMissing _ rfl rfl
